import Mathlib

/-!
# Verification of the GPS tag extraction pipeline (`pytune_helpers_images/exif_gps.py`)

Shallow embedding of the GPS extraction and decimal-coordinate normalization
pipeline.  Python values are modelled by the inductive type `PyVal`; Python
floats are carried exactly as rationals (`Rat`) — the source states no
rounding/precision policy beyond native floating-point division, and every
number occurring in the claims is exactly representable.  Python exceptions
are modelled by the `PyErr` type and `Except`-valued functions; a `try/except`
block in the source becomes a `match` on the `Except` value.
-/

/-- A Python value as it occurs in this module: `None`, strings, numbers
(ints/floats carried exactly as rationals), lists/tuples, and dicts
(insertion-ordered association lists with string keys, as produced by
`exifread`). -/
inductive PyVal where
  | none : PyVal
  | str : String → PyVal
  | num : Rat → PyVal
  | list : List PyVal → PyVal
  | dict : List (String × PyVal) → PyVal

/-- A Python exception, as far as this module distinguishes them:
`ValueError` with a context phrase and the text naming the offending value
(the f-string message is `context ++ ": " ++ offending`), `ZeroDivisionError`
(from `float / float` with zero divisor), and `TypeError` (from `float()`
applied to a non-string non-number). -/
inductive PyErr where
  | valueError (context : String) (offending : String) : PyErr
  | zeroDivisionError : PyErr
  | typeError (context : String) : PyErr
deriving DecidableEq, Repr

/-- Exception class of a `PyErr` (ValueError / ZeroDivisionError / TypeError),
forgetting the message text. -/
def PyErr.cls : PyErr → Nat
  | .valueError _ _ => 0
  | .zeroDivisionError => 1
  | .typeError _ => 2

/-- The whitespace characters of Python's `str.strip()` and of `\s` in `re`
(ASCII range). -/
def isPySpace (c : Char) : Bool :=
  c == ' ' || c == '\t' || c == '\n' || c == '\x0d' || c == '\x0b' || c == '\x0c'

/-- Python `v is None`. -/
def PyVal.isNone : PyVal → Bool
  | .none => true
  | _ => false

/-- Python truthiness (`bool(v)`) for the values of the model: `None` is
falsy, strings/lists/dicts are truthy iff nonempty, numbers truthy iff
nonzero. -/
def pyTruthy : PyVal → Bool
  | .none => false
  | .str s => !s.data.isEmpty
  | .num q => if q = 0 then false else true
  | .list l => !l.isEmpty
  | .dict d => !d.isEmpty

/-- Python `x or y`: `x` if truthy, else `y`. -/
def pyOr (a b : PyVal) : PyVal :=
  if pyTruthy a then a else b

/-- `d.get(k)` on a Python dict, with `None` for a missing key.  Python dicts
have unique keys, so first-match lookup on the association list is exact. -/
def dictGetV (d : List (String × PyVal)) (k : String) : PyVal :=
  match d.find? (fun kv => kv.1 == k) with
  | some kv => kv.2
  | Option.none => .none

/-- Strip `isPySpace` characters from both ends of a character list
(Python `str.strip()`). -/
def stripL (l : List Char) : List Char :=
  ((l.dropWhile isPySpace).reverse.dropWhile isPySpace).reverse

/-- Python `str.strip()` on a string. -/
def pyStrip (s : String) : String :=
  String.mk (stripL s.data)

/-- Value of a list of decimal digit characters, most significant first. -/
def natOfDigits (l : List Char) : Nat :=
  l.foldl (fun acc c => acc * 10 + (c.toNat - 48)) 0

/-- Parse an unsigned Python float literal: digits with an optional decimal
point (`"48"`, `"48."`, `".5"`, `"1.79"`); at least one digit is required.
(Exponents, `inf`/`nan` and `_` separators are accepted by CPython but occur
nowhere in this module's inputs and are omitted from the model.) -/
def parseUnsignedFloat (l : List Char) : Option Rat :=
  let intPart := l.takeWhile Char.isDigit
  let rest := l.dropWhile Char.isDigit
  match rest with
  | [] => if intPart.isEmpty then Option.none else some (natOfDigits intPart)
  | '.' :: frac =>
      if frac.all Char.isDigit && !(intPart.isEmpty && frac.isEmpty) then
        some ((natOfDigits intPart : Rat) + (natOfDigits frac : Rat) / 10 ^ frac.length)
      else Option.none
  | _ => Option.none

/-- Python-style `repr` of a string: surrounded by single quotes (CPython's
quote-selection subtleties are irrelevant here). -/
def reprOfString (s : String) : String :=
  "'" ++ s ++ "'"

/-- Python `float(s)` on a string: strip whitespace, optional sign, unsigned
float literal; `ValueError` otherwise. -/
def pyFloatOfString (s : String) : Except PyErr Rat :=
  let l := stripL s.data
  let isNeg : Bool := l.head? == some '-'
  let mag := if l.head? == some '-' || l.head? == some '+' then l.tail else l
  match parseUnsignedFloat mag with
  | some q => .ok (if isNeg then -q else q)
  | Option.none =>
      .error (.valueError "could not convert string to float" (reprOfString s))

/-- Render a rational as Python renders the number it stands for: integral
values like a float (`"48.0"`); non-integral values as the exact fraction
`"num/den"` (the model carries floats exactly, so the exact fraction is the
faithful rendering — it is re-read exactly by the rational token parser). -/
def ratRender (q : Rat) : String :=
  if q.den = 1 then toString q.num ++ ".0"
  else toString q.num ++ "/" ++ toString q.den

mutual
/-- Python `str(v)`. -/
def pyStr : PyVal → String
  | .none => "None"
  | .str s => s
  | .num q => ratRender q
  | .list xs => "[" ++ String.intercalate ", " (pyReprList xs) ++ "]"
  | .dict d => "\x7b" ++ String.intercalate ", " (pyReprDict d) ++ "\x7d"

/-- Python `repr(v)` (f-string `{v!r}`). -/
def pyRepr : PyVal → String
  | .none => "None"
  | .str s => reprOfString s
  | .num q => ratRender q
  | .list xs => "[" ++ String.intercalate ", " (pyReprList xs) ++ "]"
  | .dict d => "\x7b" ++ String.intercalate ", " (pyReprDict d) ++ "\x7d"

/-- `repr` of each element of a list. -/
def pyReprList : List PyVal → List String
  | [] => []
  | x :: xs => pyRepr x :: pyReprList xs

/-- `repr` of each entry of a dict. -/
def pyReprDict : List (String × PyVal) → List String
  | [] => []
  | (k, v) :: xs => (reprOfString k ++ ": " ++ pyRepr v) :: pyReprDict xs
end

/-- Python `float(v)` on an arbitrary value: numbers pass through, strings
are parsed, everything else is a `TypeError`. -/
def pyFloat : PyVal → Except PyErr Rat
  | .num q => .ok q
  | .str s => pyFloatOfString s
  | _ => .error (.typeError "float() argument must be a string or a real number")

/-- `_normalize_key` (module level, exif_gps.py:40): remove all whitespace
(`re.sub(r"\s+", "", s)`), then lowercase. -/
def norm_key (s : String) : String :=
  String.mk ((s.data.filter (fun c => !isPySpace c)).map Char.toLower)

/-- `_find_key` (module level, exif_gps.py:43): `if not tags: return None`;
build `{normalize(k): k}` over the keys (later keys overwrite earlier ones on
a collision, hence the reversed search), then return the stored original key
for the first candidate whose normalized form is present. -/
def find_key (tags : List (String × PyVal)) (cands : List String) : Option String :=
  if tags.isEmpty then Option.none
  else cands.findSome? (fun c =>
    (tags.map Prod.fst).reverse.find? (fun k => norm_key k == norm_key c))

/-- Split a character list at the first occurrence of `c`
(Python `token.split(c, 1)` when `c` occurs). -/
def splitFirst (c : Char) : List Char → List Char × List Char
  | [] => ([], [])
  | x :: xs =>
      if x = c then ([], xs)
      else
        let p := splitFirst c xs
        (x :: p.1, p.2)

/-- `_parse_rational` (module level, exif_gps.py:56): strip the token; if it
contains `/`, split once on the first `/` and divide the two floats
(`ZeroDivisionError` on a zero divisor); else parse directly as a float. -/
def parse_rational (token : String) : Except PyErr Rat :=
  let t := stripL token.data
  if t.contains '/' then
    let p := splitFirst '/' t
    match pyFloatOfString (String.mk p.1) with
    | .error e => .error e
    | .ok qa =>
        match pyFloatOfString (String.mk p.2) with
        | .error e => .error e
        | .ok qb => if qb = 0 then .error .zeroDivisionError else .ok (qa / qb)
  else pyFloatOfString (String.mk t)

/-- The delimiter class of `re.split(r"[,\s]+", s)`. -/
def isDelim (c : Char) : Bool :=
  c == ',' || isPySpace c

/-- Strip the characters `[ ] ( )` from both ends (Python `s.strip("[]()")`). -/
def stripBrackets (l : List Char) : List Char :=
  let isBr : Char → Bool := fun c => c == '[' || c == ']' || c == '(' || c == ')'
  ((l.dropWhile isBr).reverse.dropWhile isBr).reverse

/-- The token list `_parse_dms` works on (exif_gps.py:68-73): a list/tuple is
mapped through `str`; anything else is `str`-ed, stripped of whitespace, then
of surrounding brackets/parentheses, split on runs of commas/whitespace, and
empty pieces are dropped (`[p for p in re.split(r"[,\s]+", s) if p]`). -/
def dmsParts : PyVal → List String
  | .list xs => xs.map pyStr
  | v =>
      let s := stripBrackets (stripL (pyStr v).data)
      ((s.splitOnP isDelim).map String.mk).filter (fun p => p ≠ "")

/-- `_parse_dms` (module level, exif_gps.py:63): fewer than 3 tokens is
`ValueError(f"DMS format invalid: {value!r}")`; otherwise the first three
tokens are parsed as rationals (extra tokens ignored). -/
def parse_dms (value : PyVal) : Except PyErr (Rat × Rat × Rat) :=
  let parts := dmsParts value
  if parts.length < 3 then .error (.valueError "DMS format invalid" (pyRepr value))
  else
    match parse_rational (parts.getD 0 "") with
    | .error e => .error e
    | .ok d =>
        match parse_rational (parts.getD 1 "") with
        | .error e => .error e
        | .ok m =>
            match parse_rational (parts.getD 2 "") with
            | .error e => .error e
            | .ok s => .ok (d, m, s)

/-- `_dms_to_decimal` (module level, exif_gps.py:83): parse the DMS value,
form `d + m/60 + s/3600`, negate when `str(ref).upper().strip()` is `"S"` or
`"W"`. -/
def dms_to_decimal (dms_val : PyVal) (ref : PyVal) : Except PyErr Rat :=
  match parse_dms dms_val with
  | .error e => .error e
  | .ok (d, m, s) =>
      let dec := d + m / 60 + s / 3600
      let r := String.mk (stripL ((pyStr ref).data.map Char.toUpper))
      .ok (if r = "S" || r = "W" then -dec else dec)

/-- The `_normalize_key` redefined inline inside `extract_gps_from_exifread`
(exif_gps.py:121): same body as the module-level function. -/
def inline_norm_key (s : String) : String :=
  String.mk ((s.data.filter (fun c => !isPySpace c)).map Char.toLower)

/-- The `_find_key` redefined inline (exif_gps.py:125): same lookup as the
module-level function but without the `if not tags` early return. -/
def inline_find_key (tags : List (String × PyVal)) (cands : List String) : Option String :=
  cands.findSome? (fun c =>
    (tags.map Prod.fst).reverse.find? (fun k => inline_norm_key k == inline_norm_key c))

/-- The `_parse_rational` redefined inline (exif_gps.py:143): same body as
the module-level function. -/
def inline_parse_rational (tok : String) : Except PyErr Rat :=
  let t := stripL tok.data
  if t.contains '/' then
    let p := splitFirst '/' t
    match pyFloatOfString (String.mk p.1) with
    | .error e => .error e
    | .ok qa =>
        match pyFloatOfString (String.mk p.2) with
        | .error e => .error e
        | .ok qb => if qb = 0 then .error .zeroDivisionError else .ok (qa / qb)
  else pyFloatOfString (String.mk t)

/-- The `_parse_dms` redefined inline (exif_gps.py:150): same token logic as
the module-level function; the `ValueError` message reads `"DMS invalid"`
where the module-level one reads `"DMS format invalid"`. -/
def inline_parse_dms (value : PyVal) : Except PyErr (Rat × Rat × Rat) :=
  let parts := dmsParts value
  if parts.length < 3 then .error (.valueError "DMS invalid" (pyRepr value))
  else
    match inline_parse_rational (parts.getD 0 "") with
    | .error e => .error e
    | .ok d =>
        match inline_parse_rational (parts.getD 1 "") with
        | .error e => .error e
        | .ok m =>
            match inline_parse_rational (parts.getD 2 "") with
            | .error e => .error e
            | .ok s => .ok (d, m, s)

/-- The `_dms_to_decimal` redefined inline (exif_gps.py:161): same body as
the module-level function, over the inline parser. -/
def inline_dms_to_decimal (v : PyVal) (ref : PyVal) : Except PyErr Rat :=
  match inline_parse_dms v with
  | .error e => .error e
  | .ok (d, m, s) =>
      let dec := d + m / 60 + s / 3600
      let r := String.mk (stripL ((pyStr ref).data.map Char.toUpper))
      .ok (if r = "S" || r = "W" then -dec else dec)

/-- The coordinate dict returned by `extract_gps_from_exifread`:
`{"latitude": float, "longitude": float, "method": ...}` (the method entry is
whatever value the code puts there, a string in every reachable case). -/
structure Coord where
  latitude : Rat
  longitude : Rat
  method : PyVal

/-- Step 0 of `extract_gps_from_exifread` (exif_gps.py:100-113): the
pre-normalized `"location"` branch.  Returns the coordinate it would
`return`, or `Option.none` when the branch is skipped or its `try` fails
(in which case the code falls through to tag extraction). -/
def locBranch (data : PyVal) : Option Coord :=
  match data with
  | .dict d =>
      match dictGetV d "location" with
      | .dict loc =>
          let lat := dictGetV loc "latitude"
          let lon := dictGetV loc "longitude"
          if !lat.isNone && !lon.isNone then
            match pyFloat lat with
            | .error _ => Option.none
            | .ok la =>
                match pyFloat lon with
                | .error _ => Option.none
                | .ok lo => some ⟨la, lo, pyOr (dictGetV loc "method") (.str "LOCATION")⟩
          else Option.none
      | _ => Option.none
  | _ => Option.none

/-- Step 1 of `extract_gps_from_exifread` (exif_gps.py:116): the tag source —
the sub-dict under `"exif"` when `data` is a dict holding one, else `data`
itself. -/
def tagSource (data : PyVal) : PyVal :=
  match data with
  | .dict d =>
      match dictGetV d "exif" with
      | .dict e => .dict e
      | _ => data
  | _ => data

/-- `extract_gps_from_exifread` (exif_gps.py:90-173): `if not data: return
None`; try the pre-normalized location branch; select the tag source; resolve
the four GPS keys with the inline `_find_key` (any falsy key → `None`);
convert latitude and longitude with the inline `_dms_to_decimal`, any
exception swallowed to `None`. -/
def extract_gps_from_exifread (data : PyVal) : Option Coord :=
  if !pyTruthy data then Option.none
  else
    match locBranch data with
    | some c => some c
    | Option.none =>
        match tagSource data with
        | .dict t =>
            match inline_find_key t ["GPS GPSLatitude", "GPSLatitude"],
                  inline_find_key t ["GPS GPSLatitudeRef", "GPSLatitudeRef"],
                  inline_find_key t ["GPS GPSLongitude", "GPSLongitude"],
                  inline_find_key t ["GPS GPSLongitudeRef", "GPSLongitudeRef"] with
            | some lk, some lrk, some lok, some lork =>
                if lk = "" ∨ lrk = "" ∨ lok = "" ∨ lork = "" then Option.none
                else
                  match inline_dms_to_decimal (dictGetV t lk) (dictGetV t lrk) with
                  | .error _ => Option.none
                  | .ok la =>
                      match inline_dms_to_decimal (dictGetV t lok) (dictGetV t lork) with
                      | .error _ => Option.none
                      | .ok lo => some ⟨la, lo, .str "EXIFREAD"⟩
            | _, _, _, _ => Option.none
        | _ => Option.none

/-- What `reverse_geocode_from_gps` does with its arguments: either it
returns `(None, None)` without touching the network, or it delegates to
`reverse_geocode_from_latlon(lat, lon)` (an external collaborator performing
the actual geocoding). -/
inductive GeoCall where
  | noCall : GeoCall
  | call (lat lon : Rat) : GeoCall
deriving DecidableEq, Repr

/-- `reverse_geocode_from_gps` (exif_gps.py:197-212): on a dict, take
`get("lat") or get("latitude")` and `get("lon") or get("longitude")`; if
either is `None`, return `(None, None)`; else geocode the two values coerced
by `float` (a failing coercion here is an uncaught exception).  On a non-dict
first argument, `(None, None)` when `lon` is absent, else geocode both
arguments coerced by `float`. -/
def reverse_geocode_from_gps (gps_or_lat : PyVal) (lon : Option PyVal) :
    Except PyErr GeoCall :=
  match gps_or_lat with
  | .dict d =>
      let lat := pyOr (dictGetV d "lat") (dictGetV d "latitude")
      let lonVal := pyOr (dictGetV d "lon") (dictGetV d "longitude")
      if lat.isNone || lonVal.isNone then .ok .noCall
      else
        match pyFloat lat with
        | .error e => .error e
        | .ok la =>
            match pyFloat lonVal with
            | .error e => .error e
            | .ok lo => .ok (.call la lo)
  | v =>
      match lon with
      | Option.none => .ok .noCall
      | some l =>
          match pyFloat v with
          | .error e => .error e
          | .ok la =>
              match pyFloat l with
              | .error e => .error e
              | .ok lo => .ok (.call la lo)

/-- Agreement of two Python exceptions up to the wording of the context
phrase: same exception class, and for a `ValueError` the same text naming the
offending value. -/
def PyErr.agrees : PyErr → PyErr → Prop
  | .valueError _ o1, .valueError _ o2 => o1 = o2
  | .zeroDivisionError, .zeroDivisionError => True
  | .typeError m1, .typeError m2 => m1 = m2
  | _, _ => False

/-- Agreement of two fallible results: equal values on success, agreeing
exceptions (same class, same offending value) on failure. -/
def sameOutcome {α : Type} : Except PyErr α → Except PyErr α → Prop
  | .ok a, .ok b => a = b
  | .error e1, .error e2 => PyErr.agrees e1 e2
  | _, _ => False

example : norm_key "GPS GPSLatitude" = "gpsgpslatitude" := by decide
example : find_key [("gps gpslatitude", PyVal.str "x")] ["GPS GPSLatitude", "GPSLatitude"]
    = some "gps gpslatitude" := by decide
example : parse_rational "179/100" = .ok (179 / 100 : Rat) := rfl
example : parse_rational "1/0" = .error .zeroDivisionError := rfl
example : dmsParts (.str "[48, 51, 179/100]") = ["48", "51", "179/100"] := by decide
example : parse_dms (.str "48, 51, 179/100") = .ok (48, 51, 179/100) := rfl
example : dms_to_decimal (.str "48, 51, 179/100") (.str "N")
    = .ok (48 + 51/60 + (179/100)/3600) := rfl
example : dms_to_decimal (.str "48, 51, 179/100") (.str " s ")
    = .ok (-(48 + 51/60 + (179/100)/3600)) := rfl
example : extract_gps_from_exifread (.dict
    [("GPS GPSLatitude", .str "48, 51, 179/100"), ("GPS GPSLatitudeRef", .str "N"),
     ("GPS GPSLongitude", .str "2, 21, 3/100"), ("GPS GPSLongitudeRef", .str "E")])
    = some ⟨48 + 51/60 + (179/100)/3600, 2 + 21/60 + (3/100)/3600, .str "EXIFREAD"⟩ := rfl
example : extract_gps_from_exifread (.dict [("location",
    .dict [("latitude", .str "10"), ("longitude", .str "20")])])
    = some ⟨10, 20, .str "LOCATION"⟩ := rfl
example : extract_gps_from_exifread (.dict []) = Option.none := rfl
example : reverse_geocode_from_gps (.dict [("lat", .num 0)]) Option.none = .ok .noCall := rfl
example : reverse_geocode_from_gps
    (.dict [("lat", .num 0), ("latitude", .num 0), ("lon", .num 1)]) Option.none
    = .ok (.call 0 1) := rfl

/-! ## General-purpose lemmas -/

theorem strMk_data (s : String) : String.mk s.data = s := by
  cases s; rfl

theorem mem_stripL {c : Char} {l : List Char} (h : c ∈ stripL l) : c ∈ l := by
  unfold stripL at h
  rw [List.mem_reverse] at h
  have h2 := (List.dropWhile_sublist (l := (l.dropWhile isPySpace).reverse) isPySpace).mem h
  rw [List.mem_reverse] at h2
  exact (List.dropWhile_sublist isPySpace).mem h2

theorem splitFirst_fst_subset (c : Char) (l : List Char) :
    ∀ x ∈ (splitFirst c l).1, x ∈ l := by
  induction l with
  | nil => simp [splitFirst]
  | cons a as ih =>
      intro x hx
      by_cases hac : a = c
      · simp [splitFirst, hac] at hx
      · simp only [splitFirst, if_neg hac] at hx
        rcases List.mem_cons.mp hx with rfl | hx
        · exact List.mem_cons_self _ _
        · exact List.mem_cons_of_mem _ (ih x hx)

theorem splitFirst_snd_subset (c : Char) (l : List Char) :
    ∀ x ∈ (splitFirst c l).2, x ∈ l := by
  induction l with
  | nil => simp [splitFirst]
  | cons a as ih =>
      intro x hx
      by_cases hac : a = c
      · simp only [splitFirst, if_pos hac] at hx
        exact List.mem_cons_of_mem _ hx
      · simp only [splitFirst, if_neg hac] at hx
        exact List.mem_cons_of_mem _ (ih x hx)

theorem parseUnsignedFloat_nonneg {l : List Char} {q : Rat}
    (h : parseUnsignedFloat l = some q) : 0 ≤ q := by
  simp only [parseUnsignedFloat] at h
  split at h
  · split at h
    · exact absurd h (by simp)
    · injection h with h
      subst h
      positivity
  · split at h
    · injection h with h
      subst h
      positivity
    · exact absurd h (by simp)
  · exact absurd h (by simp)

theorem pyFloatOfString_nonneg {s : String} {q : Rat}
    (hq : pyFloatOfString s = .ok q) (hm : '-' ∉ s.data) : 0 ≤ q := by
  have hms : '-' ∉ stripL s.data := fun hx => hm (mem_stripL hx)
  have hhead : ((stripL s.data).head? == some '-') = false := by
    rcases hh : (stripL s.data).head? with _ | c
    · rfl
    · have hcmem : c ∈ stripL s.data := List.mem_of_mem_head? hh
      rw [beq_eq_false_iff_ne]
      intro hc
      obtain rfl : c = '-' := Option.some.inj hc
      exact hms hcmem
  simp only [pyFloatOfString] at hq
  rw [hhead] at hq
  split at hq
  · rename_i q' hq'
    injection hq with hq
    subst hq
    simpa using parseUnsignedFloat_nonneg hq'
  · exact absurd hq (by simp)

theorem parse_rational_nonneg {t : String} {q : Rat}
    (h : parse_rational t = .ok q) (hm : '-' ∉ t.data) : 0 ≤ q := by
  have hms : '-' ∉ stripL t.data := fun hx => hm (mem_stripL hx)
  simp only [parse_rational] at h
  split at h
  · split at h
    · exact absurd h (by simp)
    · rename_i qa hqa
      split at h
      · exact absurd h (by simp)
      · rename_i qb hqb
        split at h
        · exact absurd h (by simp)
        · injection h with h
          subst h
          have ha : (0 : Rat) ≤ qa := by
            refine pyFloatOfString_nonneg hqa ?_
            intro hx
            exact hms (splitFirst_fst_subset '/' (stripL t.data) _ hx)
          have hb : (0 : Rat) ≤ qb := by
            refine pyFloatOfString_nonneg hqb ?_
            intro hx
            exact hms (splitFirst_snd_subset '/' (stripL t.data) _ hx)
          exact div_nonneg ha hb
  · exact pyFloatOfString_nonneg h hms

theorem dropWhile_eq_self_of_all {α : Type} {p : α → Bool} {l : List α}
    (h : ∀ x ∈ l, p x = false) : l.dropWhile p = l := by
  cases l with
  | nil => rfl
  | cons a as => simp [List.dropWhile_cons, h a (List.mem_cons_self a as)]

theorem stripL_eq_self {l : List Char} (h : ∀ c ∈ l, isPySpace c = false) :
    stripL l = l := by
  unfold stripL
  rw [dropWhile_eq_self_of_all h,
    dropWhile_eq_self_of_all (fun c hc => h c (List.mem_reverse.mp hc)),
    List.reverse_reverse]

theorem splitFirst_append {c : Char} {a : List Char} (b : List Char) (h : c ∉ a) :
    splitFirst c (a ++ c :: b) = (a, b) := by
  induction a with
  | nil => simp [splitFirst]
  | cons x xs ih =>
      have hx : x ≠ c := fun hxc => h (hxc ▸ List.mem_cons_self x xs)
      have h' : c ∉ xs := fun hm => h (List.mem_cons_of_mem _ hm)
      simp [splitFirst, hx, ih h']

theorem getD_mem_of_lt {l : List String} {i : Nat} (hi : i < l.length) :
    l.getD i "" ∈ l := by
  rw [List.getD_eq_getElem?_getD, List.getElem?_eq_getElem hi]
  exact List.getElem_mem hi

/-! ## Claim theorems -/

/-- C1: on the flat tag map with Paris DMS strings, `extract_gps_from_exifread`
returns latitude `48 + 51/60 + (179/100)/3600`, longitude
`2 + 21/60 + (3/100)/3600`, and method `"EXIFREAD"`, exactly. -/
theorem extract_gps_paris_scenario :
    extract_gps_from_exifread (.dict
      [("GPS GPSLatitude", .str "48, 51, 179/100"), ("GPS GPSLatitudeRef", .str "N"),
       ("GPS GPSLongitude", .str "2, 21, 3/100"), ("GPS GPSLongitudeRef", .str "E")])
    = some ⟨48 + 51/60 + (179/100)/3600, 2 + 21/60 + (3/100)/3600, .str "EXIFREAD"⟩ := rfl

/-- C3 counterexample: with a `"location"` whose `"method"` entry is present
but equal to `""`, the code returns method `"LOCATION"`, not the present
entry — refuting "method taken from the location's method entry if present". -/
theorem extract_gps_location_empty_method :
    extract_gps_from_exifread (.dict [("location",
      .dict [("latitude", .str "10"), ("longitude", .str "20"), ("method", .str "")])])
      = some ⟨10, 20, .str "LOCATION"⟩ ∧ ("LOCATION" : String) ≠ "" :=
  ⟨rfl, by decide⟩

/-- C3 (amended): when the input dict has a `"location"` dict whose
`"latitude"` and `"longitude"` are non-`None` and coercible to float, the
result is those two floats with method `location.method or "LOCATION"` — the
`"method"` entry when it is present *and truthy*, else `"LOCATION"`. -/
theorem extract_gps_location_branch (d loc : List (String × PyVal)) (qla qlo : Rat)
    (hloc : dictGetV d "location" = .dict loc)
    (hlat : (dictGetV loc "latitude").isNone = false)
    (hlon : (dictGetV loc "longitude").isNone = false)
    (hfla : pyFloat (dictGetV loc "latitude") = .ok qla)
    (hflo : pyFloat (dictGetV loc "longitude") = .ok qlo) :
    extract_gps_from_exifread (.dict d)
      = some ⟨qla, qlo, pyOr (dictGetV loc "method") (.str "LOCATION")⟩ := by
  have hd : d ≠ [] := by
    intro h
    subst h
    simp [dictGetV] at hloc
  have htr : pyTruthy (.dict d) = true := by
    simp [pyTruthy, List.isEmpty_iff, hd]
  have hlb : locBranch (.dict d)
      = some ⟨qla, qlo, pyOr (dictGetV loc "method") (.str "LOCATION")⟩ := by
    simp [locBranch, hloc, hlat, hlon, hfla, hflo]
  simp [extract_gps_from_exifread, htr, hlb]

/-- C3 witness: the spec's own scenario, derived from the amended theorem. -/
theorem extract_gps_location_branch_witness :
    extract_gps_from_exifread (.dict [("location",
      .dict [("latitude", .str "10"), ("longitude", .str "20")])])
      = some ⟨10, 20, .str "LOCATION"⟩ :=
  extract_gps_location_branch
    [("location", .dict [("latitude", .str "10"), ("longitude", .str "20")])]
    [("latitude", .str "10"), ("longitude", .str "20")] 10 20 rfl rfl rfl rfl rfl

/-- C8 counterexample: the DMS parser accepts `"-1, 2, 3"` and returns a
triple whose first component is negative. -/
theorem parse_dms_accepts_negative :
    parse_dms (.str "-1, 2, 3") = .ok (-1, 2, 3) ∧ ¬ (0 ≤ (-1 : Rat)) :=
  ⟨rfl, by decide⟩

/-- C8 (amended): every DMS triple returned by the DMS parser has all three
components non-negative, for every accepted input whose tokens contain no
`'-'` sign (the parser itself imposes no sign restriction, as the
counterexample shows). -/
theorem parse_dms_nonneg_of_unsigned (v : PyVal) (d m s : Rat)
    (hp : parse_dms v = .ok (d, m, s))
    (hs : ∀ t ∈ dmsParts v, '-' ∉ t.data) :
    0 ≤ d ∧ 0 ≤ m ∧ 0 ≤ s := by
  simp only [parse_dms] at hp
  split at hp
  · exact absurd hp (by simp)
  · rename_i hlen
    push_neg at hlen
    have h0 : (dmsParts v).getD 0 "" ∈ dmsParts v := getD_mem_of_lt (by omega)
    have h1 : (dmsParts v).getD 1 "" ∈ dmsParts v := getD_mem_of_lt (by omega)
    have h2 : (dmsParts v).getD 2 "" ∈ dmsParts v := getD_mem_of_lt (by omega)
    split at hp
    · exact absurd hp (by simp)
    · rename_i d' hd'
      split at hp
      · exact absurd hp (by simp)
      · rename_i m' hm'
        split at hp
        · exact absurd hp (by simp)
        · rename_i s' hs'
          injection hp with hp
          obtain ⟨rfl, rfl, rfl⟩ : d' = d ∧ m' = m ∧ s' = s := by
            injection hp with hd hrest
            injection hrest with hm hs
            exact ⟨hd, hm, hs⟩
          exact ⟨parse_rational_nonneg hd' (hs _ h0),
                 parse_rational_nonneg hm' (hs _ h1),
                 parse_rational_nonneg hs' (hs _ h2)⟩

/-- C8 witness: `"1, 2, 3"` has unsigned tokens and parses to the
non-negative triple `(1, 2, 3)`. -/
theorem parse_dms_nonneg_of_unsigned_witness :
    parse_dms (.str "1, 2, 3") = .ok (1, 2, 3)
      ∧ (0 ≤ (1 : Rat) ∧ 0 ≤ (2 : Rat) ∧ 0 ≤ (3 : Rat)) :=
  ⟨rfl, parse_dms_nonneg_of_unsigned (.str "1, 2, 3") 1 2 3 rfl (by decide)⟩

/-- C5: for every value accepted by the DMS parser, flipping the hemisphere
reference from `"N"` to `"S"` (resp. `"E"` to `"W"`) negates the decimal
result; the reference is matched after uppercasing and stripping surrounding
whitespace, so any spellings normalizing to the four letters qualify. -/
theorem dms_to_decimal_ref_antisym (v : PyVal) (d m s : Rat)
    (hp : parse_dms v = .ok (d, m, s)) (rS rN rW rE : String)
    (hS : String.mk (stripL (rS.data.map Char.toUpper)) = "S")
    (hN : String.mk (stripL (rN.data.map Char.toUpper)) = "N")
    (hW : String.mk (stripL (rW.data.map Char.toUpper)) = "W")
    (hE : String.mk (stripL (rE.data.map Char.toUpper)) = "E") :
    dms_to_decimal v (.str rS) = (dms_to_decimal v (.str rN)).map Neg.neg
      ∧ dms_to_decimal v (.str rW) = (dms_to_decimal v (.str rE)).map Neg.neg := by
  constructor
  · simp only [dms_to_decimal, hp, pyStr, hS, hN, Except.map]
    simp [show ¬(("N" : String) = "S") from by decide,
          show ¬(("N" : String) = "W") from by decide]
    try ring
  · simp only [dms_to_decimal, hp, pyStr, hW, hE, Except.map]
    simp [show ¬(("E" : String) = "S") from by decide,
          show ¬(("E" : String) = "W") from by decide,
          show ¬(("W" : String) = "S") from by decide]
    try ring

/-- C5 witness: antisymmetry at `"1, 2, 3"` with the spellings `" s"`, `"N"`,
`"w "`, `"E"`. -/
theorem dms_to_decimal_ref_antisym_witness :
    dms_to_decimal (.str "1, 2, 3") (.str " s")
        = (dms_to_decimal (.str "1, 2, 3") (.str "N")).map Neg.neg
      ∧ dms_to_decimal (.str "1, 2, 3") (.str "w ")
        = (dms_to_decimal (.str "1, 2, 3") (.str "E")).map Neg.neg :=
  dms_to_decimal_ref_antisym (.str "1, 2, 3") 1 2 3 rfl " s" "N" "w " "E"
    (by decide) (by decide) (by decide) (by decide)

theorem pyFloatOfString_error_shape {s : String} {e : PyErr}
    (h : pyFloatOfString s = .error e) :
    e = .valueError "could not convert string to float" (reprOfString s) := by
  simp only [pyFloatOfString] at h
  split at h
  · exact absurd h (by simp)
  · injection h with h
    exact h.symm

theorem parse_rational_error_shape {t : String} {e : PyErr}
    (h : parse_rational t = .error e) :
    e = .zeroDivisionError
      ∨ ∃ o, e = .valueError "could not convert string to float" o := by
  simp only [parse_rational] at h
  split at h
  · split at h
    · rename_i e1 he1
      injection h with h
      subst h
      exact Or.inr ⟨_, pyFloatOfString_error_shape he1⟩
    · split at h
      · rename_i e2 he2
        injection h with h
        subst h
        exact Or.inr ⟨_, pyFloatOfString_error_shape he2⟩
      · split at h
        · injection h with h
          exact Or.inl h.symm
        · exact absurd h (by simp)
  · exact Or.inr ⟨_, pyFloatOfString_error_shape h⟩

/-- C4: the DMS parser fails with `ValueError("DMS format invalid: " + repr
of the raw value)` exactly when splitting yields fewer than 3 tokens; with at
least 3 tokens the result is determined by the first three tokens alone
(extras are ignored: any value whose token list is the first three tokens
parses to the very same result). -/
theorem parse_dms_arity (v w : PyVal) :
    (parse_dms v = .error (.valueError "DMS format invalid" (pyRepr v))
        ↔ (dmsParts v).length < 3)
    ∧ (3 ≤ (dmsParts v).length → dmsParts w = (dmsParts v).take 3 →
        parse_dms w = parse_dms v) := by
  constructor
  · constructor
    · intro h
      by_contra hlen
      simp only [parse_dms, if_neg hlen] at h
      split at h
      · rename_i e1 he1
        injection h with h
        rcases parse_rational_error_shape he1 with hz | ⟨o, ho⟩
        · rw [h] at hz
          exact absurd hz (by simp)
        · rw [h] at ho
          injection ho with hctx _
          exact absurd hctx (by decide)
      · split at h
        · rename_i e2 he2
          injection h with h
          rcases parse_rational_error_shape he2 with hz | ⟨o, ho⟩
          · rw [h] at hz
            exact absurd hz (by simp)
          · rw [h] at ho
            injection ho with hctx _
            exact absurd hctx (by decide)
        · split at h
          · rename_i e3 he3
            injection h with h
            rcases parse_rational_error_shape he3 with hz | ⟨o, ho⟩
            · rw [h] at hz
              exact absurd hz (by simp)
            · rw [h] at ho
              injection ho with hctx _
              exact absurd hctx (by decide)
          · exact absurd h (by simp)
    · intro hlen
      simp only [parse_dms, if_pos hlen]
  · intro hlen hw
    have hlw : (dmsParts w).length = 3 := by
      rw [hw, List.length_take]
      omega
    have hgd : ∀ i, i < 3 → (dmsParts w).getD i "" = (dmsParts v).getD i "" := by
      intro i hi
      rw [hw, List.getD_eq_getElem?_getD, List.getD_eq_getElem?_getD,
        List.getElem?_take, if_pos hi]
    simp only [parse_dms, if_neg (by omega : ¬ (dmsParts w).length < 3),
      if_neg (by omega : ¬ (dmsParts v).length < 3),
      hgd 0 (by omega), hgd 1 (by omega), hgd 2 (by omega)]

/-- C4 witness: `"1, 2, 3, 4"` and `"1, 2, 3"` parse identically (the fourth
token is ignored), and the arity failure holds at a two-token input. -/
theorem parse_dms_arity_witness :
    parse_dms (.str "1, 2, 3") = parse_dms (.str "1, 2, 3, 4")
      ∧ parse_dms (.str "1, 2")
          = .error (.valueError "DMS format invalid" (pyRepr (.str "1, 2"))) :=
  ⟨(parse_dms_arity (.str "1, 2, 3, 4") (.str "1, 2, 3")).2 (by decide) (by decide),
   (parse_dms_arity (.str "1, 2") (.str "1, 2")).1.mpr (by decide)⟩

/-- C6: for every token `a/b` whose two parts are plain float literals (no
whitespace, no further slash), `_parse_rational` returns the exact quotient
when `b ≠ 0` and raises `ZeroDivisionError` when `b = 0`. -/
theorem parse_rational_quotient (sa sb : String) (qa qb : Rat)
    (ha : pyFloatOfString sa = .ok qa) (hb : pyFloatOfString sb = .ok qb)
    (hsa : ∀ c ∈ sa.data, isPySpace c = false ∧ c ≠ '/')
    (hsb : ∀ c ∈ sb.data, isPySpace c = false ∧ c ≠ '/') :
    parse_rational (sa ++ "/" ++ sb)
      = if qb = 0 then .error .zeroDivisionError else .ok (qa / qb) := by
  have hdata : (sa ++ "/" ++ sb).data = sa.data ++ '/' :: sb.data := by
    cases sa with | mk la =>
    cases sb with | mk lb =>
    show (la ++ ['/']) ++ lb = la ++ '/' :: lb
    simp
  have hall : ∀ c ∈ (sa ++ "/" ++ sb).data, isPySpace c = false := by
    rw [hdata]
    intro c hc
    rcases List.mem_append.mp hc with h1 | h2
    · exact (hsa c h1).1
    · rcases List.mem_cons.mp h2 with rfl | h3
      · rfl
      · exact (hsb c h3).1
  have hstrip : stripL (sa ++ "/" ++ sb).data = sa.data ++ '/' :: sb.data := by
    rw [stripL_eq_self hall, hdata]
  have hna : '/' ∉ sa.data := fun hmem => (hsa _ hmem).2 rfl
  have hcont : (sa.data ++ '/' :: sb.data).contains '/' = true := by
    rw [List.elem_iff]
    exact List.mem_append_right _ (List.mem_cons_self _ _)
  simp only [parse_rational, hstrip, hcont, if_true, splitFirst_append sb.data hna,
    strMk_data, ha, hb]

/-- C6 witness: `"179/100"` parses to the exact quotient and `"3/0"` is a
`ZeroDivisionError`. -/
theorem parse_rational_quotient_witness :
    parse_rational "179/100" = .ok (179 / 100 : Rat)
      ∧ parse_rational "3/0" = .error .zeroDivisionError := by
  constructor
  · have h := parse_rational_quotient "179" "100" 179 100 rfl rfl
      (by decide) (by decide)
    rwa [if_neg (by norm_num)] at h
  · have h := parse_rational_quotient "3" "0" 3 0 rfl rfl (by decide) (by decide)
    rwa [if_pos rfl] at h

/-- C7: `_find_key` resolves keys case- and whitespace-insensitively: it
returns some key exactly when a mapping key and a candidate share a
normalized form, any returned key is an actual key of the mapping, the empty
mapping yields `None`, and a singleton map with key `"gps gpslatitude"`
resolves (over any candidate list) exactly when one with `"GPS GPSLatitude"`
does. -/
theorem find_key_norm_resolution (tags : List (String × PyVal)) (cands : List String) :
    ((∃ k, find_key tags cands = some k)
      ↔ ∃ k ∈ tags.map Prod.fst, ∃ c ∈ cands, norm_key k = norm_key c)
    ∧ (∀ k, find_key tags cands = some k → k ∈ tags.map Prod.fst)
    ∧ find_key ([] : List (String × PyVal)) cands = Option.none
    ∧ (∀ v w, (find_key [("gps gpslatitude", v)] cands).isSome
        = (find_key [("GPS GPSLatitude", w)] cands).isSome) := by
  have hmem : ∀ k, find_key tags cands = some k →
      k ∈ tags.map Prod.fst ∧ ∃ c ∈ cands, norm_key k = norm_key c := by
    intro k h
    unfold find_key at h
    split at h
    · exact absurd h (by simp)
    · obtain ⟨c, hc, hfind⟩ := List.exists_of_findSome?_eq_some h
      have hk1 : k ∈ (tags.map Prod.fst).reverse := List.mem_of_find?_eq_some hfind
      have hk2 := List.find?_some hfind
      rw [beq_iff_eq] at hk2
      exact ⟨List.mem_reverse.mp hk1, c, hc, hk2⟩
  refine ⟨⟨?_, ?_⟩, fun k h => (hmem k h).1, rfl, ?_⟩
  · rintro ⟨k, hk⟩
    obtain ⟨h1, h2⟩ := hmem k hk
    exact ⟨k, h1, h2⟩
  · rintro ⟨k, hk, c, hc, hnorm⟩
    have hne : tags.isEmpty = false := by
      cases tags with
      | nil => simp at hk
      | cons p ts => rfl
    rcases hfs : List.findSome? (fun c =>
        (tags.map Prod.fst).reverse.find? (fun k => norm_key k == norm_key c)) cands
        with _ | k'
    · rw [List.findSome?_eq_none_iff] at hfs
      have hnone := hfs c hc
      rw [List.find?_eq_none] at hnone
      have := hnone k (List.mem_reverse.mpr hk)
      rw [beq_iff_eq] at this
      exact absurd hnorm this
    · refine ⟨k', ?_⟩
      unfold find_key
      rw [hne]
      simpa using hfs
  · intro v w
    have hn : norm_key "gps gpslatitude" = norm_key "GPS GPSLatitude" := by decide
    have hsing : ∀ (k : String) (u : PyVal), find_key [(k, u)] cands
        = cands.findSome? (fun c =>
            if (norm_key k == norm_key c) = true then some k else Option.none) := by
      intro k u
      unfold find_key
      rw [if_neg (by simp)]
      congr 1
      funext c
      simp [List.find?_singleton]
    rw [hsing _ v, hsing _ w]
    clear hsing hmem
    induction cands with
    | nil => rfl
    | cons c cs ih =>
        rw [List.findSome?_cons, List.findSome?_cons]
        by_cases hcc : (norm_key "gps gpslatitude" == norm_key c) = true
        · have hcc' : (norm_key "GPS GPSLatitude" == norm_key c) = true := by
            rw [← hn]; exact hcc
          rw [hcc, hcc']
          simp
        · have hcc' : (norm_key "GPS GPSLatitude" == norm_key c) = false := by
            rw [← hn]; exact Bool.not_eq_true _ ▸ (by simpa using hcc)
          rw [Bool.not_eq_true] at hcc
          rw [hcc, hcc']
          simpa using ih

/-- C7 witness: a map with key `"gps gpslatitude"` resolves against the
spelled candidate `"GPS GPSLatitude"`, the returned key is the map's own, and
the empty map yields `None`. -/
theorem find_key_norm_resolution_witness :
    find_key [("gps gpslatitude", PyVal.str "x")] ["GPS GPSLatitude", "GPSLatitude"]
        = some "gps gpslatitude"
      ∧ "gps gpslatitude" ∈ ([("gps gpslatitude", PyVal.str "x")].map Prod.fst) :=
  ⟨by decide,
   (find_key_norm_resolution [("gps gpslatitude", PyVal.str "x")]
      ["GPS GPSLatitude", "GPSLatitude"]).2.1 "gps gpslatitude" (by decide)⟩

/-- C2: `extract_gps_from_exifread` is a total function into an optional
coordinate — every internal failure (`Except.error` of a parse or coercion)
is pattern-matched away, never surfaced: it returns `None` or a coordinate
for every input; any non-dict input yields `None`; the empty dict yields
`None`; and when the location branch does not produce a result and any one of
the four required GPS keys cannot be resolved in the tag source, the result
is `None`. -/
theorem extract_gps_total_absence (v : PyVal) (t : List (String × PyVal)) :
    (extract_gps_from_exifread v = Option.none
      ∨ ∃ c, extract_gps_from_exifread v = some c)
    ∧ extract_gps_from_exifread (.dict []) = Option.none
    ∧ ((∀ d, v ≠ PyVal.dict d) → extract_gps_from_exifread v = Option.none)
    ∧ (locBranch v = Option.none → tagSource v = .dict t →
        (inline_find_key t ["GPS GPSLatitude", "GPSLatitude"] = Option.none
          ∨ inline_find_key t ["GPS GPSLatitudeRef", "GPSLatitudeRef"] = Option.none
          ∨ inline_find_key t ["GPS GPSLongitude", "GPSLongitude"] = Option.none
          ∨ inline_find_key t ["GPS GPSLongitudeRef", "GPSLongitudeRef"] = Option.none) →
        extract_gps_from_exifread v = Option.none) := by
  refine ⟨?_, rfl, ?_, ?_⟩
  · rcases h : extract_gps_from_exifread v with _ | c
    · exact Or.inl rfl
    · exact Or.inr ⟨c, rfl⟩
  · intro hnd
    cases v with
    | dict d => exact absurd rfl (hnd d)
    | none => rfl
    | str s => simp [extract_gps_from_exifread, locBranch, tagSource]
    | num q => simp [extract_gps_from_exifread, locBranch, tagSource]
    | list l => simp [extract_gps_from_exifread, locBranch, tagSource]
  · intro hlb hts hmiss
    unfold extract_gps_from_exifread
    split
    · rfl
    · rw [hlb]
      show (match tagSource v with | _ => _ : Option Coord) = Option.none
      rw [hts]
      rcases h1 : inline_find_key t ["GPS GPSLatitude", "GPSLatitude"] with _ | k1 <;>
        rcases h2 : inline_find_key t ["GPS GPSLatitudeRef", "GPSLatitudeRef"] with _ | k2 <;>
        rcases h3 : inline_find_key t ["GPS GPSLongitude", "GPSLongitude"] with _ | k3 <;>
        rcases h4 : inline_find_key t ["GPS GPSLongitudeRef", "GPSLongitudeRef"] with _ | k4 <;>
        simp_all

/-- C2 witness: a dict whose only key is unrelated to GPS satisfies the
missing-key hypotheses and yields `None`. -/
theorem extract_gps_total_absence_witness :
    extract_gps_from_exifread (.dict [("foo", .str "1")]) = Option.none :=
  (extract_gps_total_absence (.dict [("foo", .str "1")]) [("foo", .str "1")]).2.2.2
    rfl rfl (Or.inl rfl)

theorem pyErr_agrees_refl (e : PyErr) : PyErr.agrees e e := by
  cases e <;> simp [PyErr.agrees]

theorem sameOutcome_refl {α : Type} (x : Except PyErr α) : sameOutcome x x := by
  cases x with
  | error e => exact pyErr_agrees_refl e
  | ok a => exact rfl

/-- C9: the helpers redefined inline inside `extract_gps_from_exifread` are
extensionally equal to the module-level functions of the same names: the key
helpers return identical values, and the parsing helpers return identical
values and fail with agreeing exceptions — same exception class naming the
same offending value; the only textual difference is the `ValueError` context
wording (`"DMS invalid"` inline vs `"DMS format invalid"` at module level). -/
theorem inline_helpers_equiv :
    (∀ s, inline_norm_key s = norm_key s)
    ∧ (∀ tags cands, inline_find_key tags cands = find_key tags cands)
    ∧ (∀ t, inline_parse_rational t = parse_rational t)
    ∧ (∀ v, sameOutcome (inline_parse_dms v) (parse_dms v))
    ∧ (∀ v r, sameOutcome (inline_dms_to_decimal v r) (dms_to_decimal v r)) := by
  have hdms : ∀ v, sameOutcome (inline_parse_dms v) (parse_dms v) := by
    intro v
    by_cases hlen : (dmsParts v).length < 3
    · simp only [inline_parse_dms, parse_dms, if_pos hlen]
      exact rfl
    · simp only [inline_parse_dms, parse_dms, if_neg hlen]
      exact sameOutcome_refl _
  refine ⟨fun s => rfl, ?_, fun t => rfl, hdms, ?_⟩
  · intro tags cands
    cases tags with
    | nil =>
        show List.findSome? _ cands = find_key [] cands
        exact List.findSome?_eq_none_iff.mpr (fun c _ => rfl)
    | cons p ts => rfl
  · intro v r
    have h := hdms v
    unfold inline_dms_to_decimal dms_to_decimal
    rcases hi : inline_parse_dms v with ei | ⟨d, m, s⟩ <;>
      rcases hm : parse_dms v with em | ⟨d', m', s'⟩ <;>
      rw [hi, hm] at h
    · exact h
    · exact absurd h (by simp [sameOutcome])
    · exact absurd h (by simp [sameOutcome])
    · have h' : (d, m, s) = (d', m', s') := h
      obtain ⟨rfl, h2⟩ : d = d' ∧ (m, s) = (m', s') := by
        injection h' with ha hb
        exact ⟨ha, hb⟩
      obtain ⟨rfl, rfl⟩ : m = m' ∧ s = s' := by
        injection h2 with ha hb
        exact ⟨ha, hb⟩
      exact sameOutcome_refl _

/-- C10 counterexample: on `{"lat": 0, "latitude": 0, "lon": 1}` — where
`"lat"` is `0` and no `"latitude"` key supplies a non-falsy value — the code
does attempt geocoding (with latitude `0.0`), instead of returning
`(None, None)`. -/
theorem reverse_geocode_zero_with_zero_fallback :
    reverse_geocode_from_gps
      (.dict [("lat", .num 0), ("latitude", .num 0), ("lon", .num 1)]) Option.none
      = .ok (.call 0 1) ∧ GeoCall.call 0 1 ≠ GeoCall.noCall :=
  ⟨rfl, by decide⟩

/-- C10 (amended): when `"lat"` maps to the number `0` and the `"latitude"`
lookup yields `None` (key absent or mapped to `None`) — or symmetrically for
`"lon"`/`"longitude"` — `reverse_geocode_from_gps` returns `(None, None)`
without attempting any geocoding: a coordinate of exactly 0 degrees with no
usable fallback is treated the same as an absent coordinate. -/
theorem reverse_geocode_zero_treated_absent (d : List (String × PyVal))
    (lonArg : Option PyVal)
    (h : (dictGetV d "lat" = .num 0 ∧ dictGetV d "latitude" = .none) ∨
         (dictGetV d "lon" = .num 0 ∧ dictGetV d "longitude" = .none)) :
    reverse_geocode_from_gps (.dict d) lonArg = .ok .noCall := by
  rcases h with ⟨h1, h2⟩ | ⟨h1, h2⟩ <;>
    simp [reverse_geocode_from_gps, h1, h2, pyOr, pyTruthy, PyVal.isNone]

/-- C10 witness: `{"lat": 0}` yields `(None, None)` with no geocoding call. -/
theorem reverse_geocode_zero_treated_absent_witness :
    reverse_geocode_from_gps (.dict [("lat", .num 0)]) Option.none = .ok .noCall :=
  reverse_geocode_zero_treated_absent [("lat", .num 0)] Option.none
    (Or.inl ⟨rfl, rfl⟩)
